import Mathlib

/-!
Shallow embedding of the cart pricing and order lifecycle subsystem of the
ecommerce repository (backend/models/Cart.js, backend/models/Order.js,
backend/models/Product.js, backend/routes/orderRoutes.js,
backend/routes/paymentRoutes.js).

Monetary values are modelled as rationals (the source computes with JS
numbers over decimal currency amounts); quantities and stock counts as
integers; Mongoose ObjectIds as naturals; timestamps as natural-number
ticks supplied by the caller.  Fallible operations (which `throw` in the
source) return `Except`/`Option`.
-/

/-- Product variant subdocument (`variant: { name, value, additionalPrice }`
in `cartItemSchema` / `orderItemSchema`). -/
structure Variant where
  name : String
  value : String
  additionalPrice : ℚ
deriving DecidableEq, Repr

/-- Cart line, per `cartItemSchema`: product reference plus a snapshot of
name/image/price taken at add time. -/
structure CartItem where
  product : Nat
  name : String
  image : String
  price : ℚ
  quantity : Int
  variant : Option Variant
deriving DecidableEq, Repr

/-- Cart document, per `cartSchema`: the line list, the coupon fields and the
four derived monetary fields recomputed by the pre-save hook. -/
structure Cart where
  items : List CartItem
  couponCode : Option String
  couponDiscount : ℚ
  subtotal : ℚ
  tax : ℚ
  shipping : ℚ
  total : ℚ
deriving DecidableEq, Repr

/-- A freshly created cart (`Cart.create({ user, items: [] })` with the schema
defaults: empty items, no coupon, all monetary fields 0). -/
def emptyCart : Cart :=
  { items := [], couponCode := none, couponDiscount := 0,
    subtotal := 0, tax := 0, shipping := 0, total := 0 }

/-- Product document (the fields of `productSchema` used by the cart and
order code paths). -/
structure Product where
  id : Nat
  name : String
  images : List String
  price : ℚ
  countInStock : Int
  isActive : Bool
  status : String
deriving DecidableEq, Repr

/-- `Product.findById` over the catalog, modelled as a list of products. -/
def findProduct (catalog : List Product) (pid : Nat) : Option Product :=
  catalog.find? (fun p => p.id == pid)

/-- Status fixup at the end of `productSchema.methods.updateStock`:
stock 0 forces `out_of_stock`, and leaving 0 restores `active`. -/
def Product.fixStatus (p : Product) : Product :=
  if p.countInStock = 0 then { p with status := "out_of_stock" }
  else if p.status = "out_of_stock" then { p with status := "active" }
  else p

/-- `productSchema.methods.updateStock(quantity, operation)`: `subtract`
throws when stock is short, otherwise decrements; `add` increments;
then the stock-based status fixup runs and the product is saved. -/
def Product.updateStock (p : Product) (quantity : Int) (operation : String) :
    Option Product :=
  if operation = "subtract" then
    if p.countInStock < quantity then none
    else some (Product.fixStatus { p with countInStock := p.countInStock - quantity })
  else if operation = "add" then
    some (Product.fixStatus { p with countInStock := p.countInStock + quantity })
  else
    some (Product.fixStatus p)

/-- Unit price of a cart line inside the subtotal reduce:
`item.price + (item.variant ? item.variant.additionalPrice : 0)`. -/
def CartItem.linePrice (it : CartItem) : ℚ :=
  it.price + (match it.variant with
    | some v => v.additionalPrice
    | none => 0)

/-- The subtotal reduce of the cart pre-save hook:
`items.reduce((total, item) => total + itemPrice * item.quantity, 0)`. -/
def cartSubtotal (items : List CartItem) : ℚ :=
  items.foldl (fun acc it => acc + it.linePrice * (it.quantity : ℚ)) 0

/-- The cart pre-save hook (`cartSchema.pre('save')`): recompute subtotal,
8% tax, $10 shipping free from $100, and
`total = subtotal + tax + shipping - couponDiscount`. -/
def Cart.recomputeTotals (c : Cart) : Cart :=
  let st := cartSubtotal c.items
  let tax := st * (0.08 : ℚ)
  let sh : ℚ := if st ≥ 100 then 0 else 10
  { c with subtotal := st, tax := tax, shipping := sh,
           total := st + tax + sh - c.couponDiscount }

/-- Mongoose validator on `cartItemSchema.quantity` (`min: 1, max: 10`). -/
def CartItem.quantityOK (it : CartItem) : Bool :=
  decide (1 ≤ it.quantity) && decide (it.quantity ≤ 10)

/-- Saving a cart document: Mongoose validation of the line quantities
(`min: 1, max: 10` on `cartItemSchema.quantity`), then the pre-save
recompute hook.  A validation failure throws, modelled as `none`. -/
def Cart.save (c : Cart) : Option Cart :=
  if c.items.all CartItem.quantityOK then some c.recomputeTotals else none

/-- Line identity used by `addItem`/`updateItemQuantity`/`removeItem`:
same product id and (by `JSON.stringify` comparison) same variant. -/
def CartItem.sameLine (pid : Nat) (variant : Option Variant) (it : CartItem) : Bool :=
  it.product == pid && it.variant == variant

/-- `findIndex(...) > -1` over the cart lines. -/
def Cart.hasLine (c : Cart) (pid : Nat) (variant : Option Variant) : Bool :=
  c.items.any (CartItem.sameLine pid variant)

/-- Mutation of the line found by `findIndex` (the first match). -/
def updateFirstLine (pid : Nat) (variant : Option Variant)
    (f : CartItem → CartItem) : List CartItem → List CartItem
  | [] => []
  | it :: rest =>
    if CartItem.sameLine pid variant it then f it :: rest
    else it :: updateFirstLine pid variant f rest

/-- `splice(itemIndex, 1)` at the index found by `findIndex`. -/
def removeFirstLine (pid : Nat) (variant : Option Variant) :
    List CartItem → List CartItem
  | [] => []
  | it :: rest =>
    if CartItem.sameLine pid variant it then rest
    else it :: removeFirstLine pid variant rest

/-- Errors thrown by the cart methods. -/
inductive CartError where
  | productNotFound
  | productNotAvailable
  | itemNotFound
  | invalidCoupon
  | minimumNotMet (minAmount : ℚ)
  | validationFailed
deriving DecidableEq, Repr

/-- Lift a save result into the method's thrown-error discipline. -/
def saveOrThrow (r : Option Cart) : Except CartError Cart :=
  match r with
  | some c => .ok c
  | none => .error .validationFailed

/-- `cartSchema.methods.addItem(productId, quantity, variant)`: an existing
(product, variant) line gets its quantity increased and capped at 10;
otherwise the product is loaded, must exist, be active and have enough
stock, and a new line snapshots its name/image/price with quantity
`Math.min(quantity, 10)`.  Ends with `save()`. -/
def Cart.addItem (catalog : List Product) (c : Cart) (pid : Nat)
    (quantity : Int) (variant : Option Variant) : Except CartError Cart :=
  if c.hasLine pid variant then
    saveOrThrow (Cart.save { c with
      items := updateFirstLine pid variant
        (fun it =>
          let q := it.quantity + quantity
          { it with quantity := if q > 10 then 10 else q }) c.items })
  else
    match findProduct catalog pid with
    | none => .error .productNotFound
    | some p =>
      if !p.isActive || p.countInStock < quantity then
        .error .productNotAvailable
      else
        saveOrThrow (Cart.save { c with
          items := c.items ++ [{
            product := pid,
            name := p.name,
            image := (p.images.head?).getD "",
            price := p.price,
            quantity := min quantity 10,
            variant := variant }] })

/-- `cartSchema.methods.updateItemQuantity`: missing line throws; quantity
at most 0 removes the line; otherwise the quantity is set to
`Math.min(quantity, 10)`.  Ends with `save()`. -/
def Cart.updateItemQuantity (c : Cart) (pid : Nat) (quantity : Int)
    (variant : Option Variant) : Except CartError Cart :=
  if !c.hasLine pid variant then .error .itemNotFound
  else if quantity ≤ 0 then
    saveOrThrow (Cart.save { c with items := removeFirstLine pid variant c.items })
  else
    saveOrThrow (Cart.save { c with
      items := updateFirstLine pid variant
        (fun it => { it with quantity := min quantity 10 }) c.items })

/-- `cartSchema.methods.removeItem`: missing line throws, otherwise the line
is spliced out and the cart saved. -/
def Cart.removeItem (c : Cart) (pid : Nat) (variant : Option Variant) :
    Except CartError Cart :=
  if !c.hasLine pid variant then .error .itemNotFound
  else saveOrThrow (Cart.save { c with items := removeFirstLine pid variant c.items })

/-- `cartSchema.methods.clearCart`: empties the lines and resets both coupon
fields, then saves. -/
def Cart.clearCart (c : Cart) : Except CartError Cart :=
  saveOrThrow (Cart.save { c with items := [], couponCode := none, couponDiscount := 0 })

/-- JS `String.prototype.toUpperCase` (character-wise upper-casing). -/
def jsToUpperCase (s : String) : String :=
  String.mk (s.data.map Char.toUpper)

/-- Coupon rule from the hardcoded table in `applyCoupon`. -/
structure Coupon where
  isPercentage : Bool
  value : ℚ
  minAmount : ℚ
deriving DecidableEq, Repr

/-- The hardcoded coupon table of `cartSchema.methods.applyCoupon` (and of the
order-creation route). -/
def couponTable (code : String) : Option Coupon :=
  if code = "SAVE10" then some { isPercentage := true, value := 10, minAmount := 50 }
  else if code = "SAVE20" then some { isPercentage := true, value := 20, minAmount := 100 }
  else if code = "FLAT15" then some { isPercentage := false, value := 15, minAmount := 75 }
  else none

/-- `cartSchema.methods.applyCoupon(couponCode)`: case-insensitive lookup,
minimum-subtotal gate against the stored subtotal, percentage discounts
as `subtotal * value / 100`, fixed discounts as the flat value; stores the
upper-cased code and saves. -/
def Cart.applyCoupon (c : Cart) (couponCode : String) : Except CartError Cart :=
  let code := jsToUpperCase couponCode
  match couponTable code with
  | none => .error .invalidCoupon
  | some cp =>
    if c.subtotal < cp.minAmount then .error (.minimumNotMet cp.minAmount)
    else
      let disc := if cp.isPercentage then c.subtotal * cp.value / 100 else cp.value
      saveOrThrow (Cart.save { c with couponDiscount := disc, couponCode := some code })

/-- `cartSchema.methods.removeCoupon`: resets both coupon fields and saves. -/
def Cart.removeCoupon (c : Cart) : Except CartError Cart :=
  saveOrThrow (Cart.save { c with couponCode := none, couponDiscount := 0 })

/-- One cart mutation, for stating properties of arbitrary operation
sequences. -/
inductive CartOp where
  | add (pid : Nat) (quantity : Int) (variant : Option Variant)
  | update (pid : Nat) (quantity : Int) (variant : Option Variant)
  | remove (pid : Nat) (variant : Option Variant)
  | clear
  | coupon (code : String)
  | uncoupon
deriving Repr

/-- Run one cart method; a thrown error leaves the stored cart document
unchanged. -/
def runCartOp (catalog : List Product) (c : Cart) : CartOp → Cart
  | .add pid q v =>
    match c.addItem catalog pid q v with
    | .ok c2 => c2
    | .error _ => c
  | .update pid q v =>
    match c.updateItemQuantity pid q v with
    | .ok c2 => c2
    | .error _ => c
  | .remove pid v =>
    match c.removeItem pid v with
    | .ok c2 => c2
    | .error _ => c
  | .clear =>
    match c.clearCart with
    | .ok c2 => c2
    | .error _ => c
  | .coupon code =>
    match c.applyCoupon code with
    | .ok c2 => c2
    | .error _ => c
  | .uncoupon =>
    match c.removeCoupon with
    | .ok c2 => c2
    | .error _ => c

/-- Run a sequence of cart mutations from a starting cart. -/
def runCartOps (catalog : List Product) (c : Cart) (ops : List CartOp) : Cart :=
  ops.foldl (runCartOp catalog) c

/-- ASCII digit character, as produced by JS `Number.prototype.toString`. -/
def digitChar (d : Nat) : Char := Char.ofNat (48 + d)

/-- Numeric value of an ASCII digit character. -/
def digitVal (c : Char) : Nat := c.toNat - 48

/-- Big-endian decimal digit characters of a positive natural, with explicit
fuel (the number itself is always enough fuel). -/
def natDigitsAux : Nat → Nat → List Char
  | 0, _ => []
  | fuel + 1, n => if n = 0 then [] else natDigitsAux fuel (n / 10) ++ [digitChar (n % 10)]

/-- JS `Number.prototype.toString` on a natural number. -/
def natToString (n : Nat) : String :=
  if n = 0 then "0" else String.mk (natDigitsAux n n)

/-- JS `String.prototype.substr(-n)`: the last `n` characters (the whole
string when it is shorter than `n`). -/
def jsSubstrLast (n : Nat) (s : String) : String :=
  String.mk (s.data.drop (s.data.length - n))

/-- JS `String.prototype.padStart(n, c)`. -/
def jsPadStart (n : Nat) (c : Char) (s : String) : String :=
  String.mk (List.replicate (n - s.data.length) c ++ s.data)

/-- Digit-accumulating loop of JS `parseInt` (stops at the first
non-digit). -/
def parseDigitsAux (acc : Nat) : List Char → Nat
  | [] => acc
  | c :: rest => if c.isDigit then parseDigitsAux (10 * acc + digitVal c) rest else acc

/-- JS `parseInt` on the strings arising here (no sign or whitespace
handling; `none` models `NaN`). -/
def jsParseInt (s : String) : Option Nat :=
  match s.data with
  | [] => none
  | c :: _ => if c.isDigit then some (parseDigitsAux 0 s.data) else none

/-- Calendar date fed to the order-number hook (`getFullYear()`,
`getMonth() + 1`, `getDate()`). -/
structure OrderDate where
  year : Nat
  month : Nat
  day : Nat
deriving DecidableEq, Repr

/-- The order-number generation of `orderSchema.pre('save')` for a new order:
`ORD` + last two digits of the year + zero-padded month and day + a
4-digit sequence obtained by parsing the last 4 characters of today's
most recent order number and adding 1 (1 when there is no such order).
An unparseable suffix is `NaN` in JS, propagated here as `none`. -/
def orderNumberString (date : OrderDate) (lastOrderNumber : Option String) : String :=
  let y := jsSubstrLast 2 (natToString date.year)
  let m := jsPadStart 2 '0' (natToString date.month)
  let d := jsPadStart 2 '0' (natToString date.day)
  let seq : Option Nat := match lastOrderNumber with
    | some s => (jsParseInt (jsSubstrLast 4 s)).map (· + 1)
    | none => some 1
  let seqStr := match seq with
    | some n => natToString n
    | none => "NaN"
  "ORD" ++ y ++ m ++ d ++ jsPadStart 4 '0' seqStr

/-- Order status enumeration of `orderSchema.status`. -/
inductive OrderStatus where
  | pending
  | processing
  | shipped
  | delivered
  | cancelled
  | refunded
deriving DecidableEq, Repr

/-- String form of a status, as interpolated into history notes. -/
def OrderStatus.name : OrderStatus → String
  | .pending => "pending"
  | .processing => "processing"
  | .shipped => "shipped"
  | .delivered => "delivered"
  | .cancelled => "cancelled"
  | .refunded => "refunded"

/-- Entry of the `statusHistory` array. -/
structure StatusEntry where
  status : OrderStatus
  timestamp : Nat
  note : String
  updatedBy : Option Nat
deriving DecidableEq, Repr

/-- Payment result subdocument (the `id` and `status` fields checked by the
pay route; the remaining pass-through fields are not needed by any
claim). -/
structure PaymentResult where
  id : String
  status : String
deriving DecidableEq, Repr

/-- Order line, per `orderItemSchema`: snapshot of name/image/price at
checkout time. -/
structure OrderItem where
  product : Nat
  name : String
  image : String
  price : ℚ
  quantity : Int
  variant : Option Variant
deriving DecidableEq, Repr

/-- Order document, per `orderSchema` (shipping/billing addresses and the
free-text `notes` are validated pass-through data used by no claim and
are not modelled). -/
structure Order where
  user : Nat
  orderNumber : String
  orderItems : List OrderItem
  paymentMethod : String
  paymentResult : Option PaymentResult
  itemsPrice : ℚ
  taxPrice : ℚ
  shippingPrice : ℚ
  discountAmount : ℚ
  couponCode : Option String
  totalPrice : ℚ
  status : OrderStatus
  isPaid : Bool
  paidAt : Option Nat
  isDelivered : Bool
  deliveredAt : Option Nat
  shippedAt : Option Nat
  cancelledAt : Option Nat
  refundedAt : Option Nat
  cancellationReason : Option String
  trackingNumber : Option String
  carrier : Option String
  statusHistory : List StatusEntry
deriving DecidableEq, Repr

/-- The status-history pre-save hook (`orderSchema.pre('save')`, second
hook): when the `status` path was modified on an existing document it
appends a "Status updated to ..." entry and sets the status-specific
timestamp fields. -/
def Order.statusChangeHook (o : Order) (isNew statusModified : Bool) (now : Nat) : Order :=
  if statusModified && !isNew then
    let entry : StatusEntry :=
      { status := o.status, timestamp := now,
        note := "Status updated to " ++ o.status.name, updatedBy := none }
    let o1 := { o with statusHistory := o.statusHistory ++ [entry] }
    match o1.status with
    | .shipped => if o1.shippedAt = none then { o1 with shippedAt := some now } else o1
    | .delivered =>
      let o2 := if o1.deliveredAt = none then { o1 with deliveredAt := some now } else o1
      { o2 with isDelivered := true }
    | .cancelled => if o1.cancelledAt = none then { o1 with cancelledAt := some now } else o1
    | .refunded => if o1.refundedAt = none then { o1 with refundedAt := some now } else o1
    | _ => o1
  else o

/-- The initial-history pre-save hook (`orderSchema.pre('save')`, third
hook): a new document gets one "Order created" entry. -/
def Order.initHistoryHook (o : Order) (isNew : Bool) (now : Nat) : Order :=
  if isNew then
    let entry : StatusEntry :=
      { status := o.status, timestamp := now, note := "Order created", updatedBy := none }
    { o with statusHistory := o.statusHistory ++ [entry] }
  else o

/-- `save()` on an already-persisted order: the order-number hook is skipped
(`isNew` false), the status-history hook fires when the status path was
modified, and the initial-history hook is skipped. -/
def Order.saveExisting (o : Order) (statusModified : Bool) (now : Nat) : Order :=
  (o.statusChangeHook false statusModified now).initHistoryHook false now

/-- `save()` on a new order: the order-number hook assigns the generated
number, the status-change hook is skipped (`isNew` true), and the
initial-history hook appends the "Order created" entry. -/
def Order.saveNew (o : Order) (date : OrderDate) (lastOrderNumber : Option String)
    (now : Nat) : Order :=
  let o1 := { o with orderNumber := orderNumberString date lastOrderNumber }
  (o1.statusChangeHook true false now).initHistoryHook true now

/-- `orderSchema.methods.updatePaymentStatus(paymentResult)`: always marks
the order paid with timestamp and payment result; promotes `pending` to
`processing`; saves.  The `status` path is modified exactly when that
promotion happened. -/
def Order.updatePaymentStatus (o : Order) (pr : PaymentResult) (now : Nat) : Order :=
  let o1 := { o with isPaid := true, paidAt := some now, paymentResult := some pr }
  if o.status == OrderStatus.pending then
    ({ o1 with status := OrderStatus.processing }).saveExisting true now
  else
    o1.saveExisting false now

/-- `orderSchema.methods.cancelOrder(reason, cancelledBy)`: throws for
shipped/delivered orders before touching anything; otherwise sets the
cancelled state, pushes its own history entry, and saves (the status
path is modified unless the order was already cancelled). -/
def Order.cancelOrder (o : Order) (reason : String) (cancelledBy : Nat) (now : Nat) :
    Except String Order :=
  if o.status == OrderStatus.shipped || o.status == OrderStatus.delivered then
    .error "Cannot cancel shipped or delivered orders"
  else
    let statusModified := !(o.status == OrderStatus.cancelled)
    let entry : StatusEntry :=
      { status := OrderStatus.cancelled, timestamp := now,
        note := "Order cancelled: " ++ reason, updatedBy := some cancelledBy }
    let o1 := { o with status := OrderStatus.cancelled, cancelledAt := some now,
                       cancellationReason := some reason,
                       statusHistory := o.statusHistory ++ [entry] }
    .ok (o1.saveExisting statusModified now)

/-- Errors surfaced by the order routes. -/
inductive OrderError where
  | badRequest
  | productNotFound
  | insufficientStock
  | notAuthorized
  | alreadyPaid
  | cannotCancel
deriving DecidableEq, Repr

/-- `PUT /api/orders/:id/pay`: validator requires a payment result with
non-empty `id` and `status`; the requester must own the order; an order
already paid is rejected before `updatePaymentStatus` runs, so the
stored document is untouched in that case. -/
def payOrderRoute (requester : Nat) (o : Order) (pr : PaymentResult) (now : Nat) :
    Except OrderError Order :=
  if pr.id = "" || pr.status = "" then .error .badRequest
  else if !(o.user == requester) then .error .notAuthorized
  else if o.isPaid then .error .alreadyPaid
  else .ok (o.updatePaymentStatus pr now)

/-- The `payment_intent.succeeded` branch of the Stripe webhook handler:
`updatePaymentStatus` runs only when the order is not yet paid, so a
repeated success event leaves the order exactly as it is. -/
def stripeWebhookPaymentSucceeded (o : Order) (pr : PaymentResult) (now : Nat) : Order :=
  if !o.isPaid then o.updatePaymentStatus pr now else o

/-- Write-back of a saved product into the catalog. -/
def setProduct (catalog : List Product) (p : Product) : List Product :=
  catalog.map (fun q => if q.id == p.id then p else q)

/-- The stock-restore loop of the cancel route: for each order line, reload
the product and, when it still exists, `updateStock(quantity, 'add')`. -/
def restoreStock (catalog : List Product) (items : List OrderItem) : List Product :=
  items.foldl
    (fun cat it =>
      match findProduct cat it.product with
      | some p =>
        match p.updateStock it.quantity "add" with
        | some p2 => setProduct cat p2
        | none => cat
      | none => cat)
    catalog

/-- `PUT /api/orders/:id/cancel`: ownership check, then `cancelOrder` with
the default reason; on success the stock of every line is restored; on
a thrown error nothing is written, so the order and the catalog are
returned unchanged along with the error. -/
def cancelOrderRoute (catalog : List Product) (o : Order) (requester : Nat)
    (reason : Option String) (now : Nat) :
    Order × List Product × Option OrderError :=
  if !(o.user == requester) then (o, catalog, some .notAuthorized)
  else
    match o.cancelOrder (reason.getD "Cancelled by user") requester now with
    | .ok o2 => (o2, restoreStock catalog o2.orderItems, none)
    | .error _ => (o, catalog, some .cannotCancel)

/-- `PUT /api/orders/:id/status` (admin): sets the status and the optional
tracking fields, pushes its own history entry, and saves — on which the
status-history hook fires again whenever the status actually changed. -/
def adminUpdateStatusRoute (o : Order) (newStatus : OrderStatus)
    (trackingNumber carrier note : Option String) (adminId : Nat) (now : Nat) : Order :=
  let statusModified := !(o.status == newStatus)
  let entry : StatusEntry :=
    { status := newStatus, timestamp := now,
      note := note.getD ("Status updated to " ++ newStatus.name ++ " by admin"),
      updatedBy := some adminId }
  let o1 := { o with status := newStatus,
                     trackingNumber := match trackingNumber with
                       | some t => some t
                       | none => o.trackingNumber,
                     carrier := match carrier with
                       | some t => some t
                       | none => o.carrier,
                     statusHistory := o.statusHistory ++ [entry] }
  o1.saveExisting statusModified now

/-- One requested line of `POST /api/orders`. -/
structure OrderReqItem where
  product : Nat
  quantity : Int
  variant : Option Variant
deriving DecidableEq, Repr

/-- The per-line validation/pricing loop of the create-order route: each
product must exist and be active (404) and have enough stock (400);
`itemsPrice` accumulates `product.price * quantity` (no variant
surcharge) while the line snapshots name/image/price. -/
def processOrderItems (catalog : List Product) :
    List OrderReqItem → Except OrderError (ℚ × List OrderItem)
  | [] => .ok (0, [])
  | it :: rest =>
    match findProduct catalog it.product with
    | none => .error .productNotFound
    | some p =>
      if !p.isActive then .error .productNotFound
      else if p.countInStock < it.quantity then .error .insufficientStock
      else
        match processOrderItems catalog rest with
        | .error e => .error e
        | .ok (ip, lines) =>
          let line : OrderItem :=
            { product := p.id, name := p.name, image := (p.images.head?).getD "",
              price := p.price, quantity := it.quantity, variant := it.variant }
          .ok (p.price * (it.quantity : ℚ) + ip, line :: lines)

/-- Coupon discount of the create-order route (applied against `itemsPrice`;
an unknown code or an unmet minimum silently yields 0). -/
def orderCouponDiscount (couponCode : Option String) (itemsPrice : ℚ) : ℚ :=
  match couponCode with
  | none => 0
  | some code =>
    match couponTable (jsToUpperCase code) with
    | some cp =>
      if itemsPrice ≥ cp.minAmount then
        if cp.isPercentage then itemsPrice * cp.value / 100 else cp.value
      else 0
    | none => 0

/-- The stock-decrement loop after order persistence: reload each requested
product and `updateStock(quantity, 'subtract')`; a throw (missing
product or short stock) aborts the loop with the error, keeping earlier
decrements. -/
def subtractStockLoop : List Product → List OrderReqItem →
    List Product × Option OrderError
  | cat, [] => (cat, none)
  | cat, it :: rest =>
    match findProduct cat it.product with
    | none => (cat, some .productNotFound)
    | some p =>
      match p.updateStock it.quantity "subtract" with
      | none => (cat, some .insufficientStock)
      | some p2 => subtractStockLoop (setProduct cat p2) rest

/-- Outcome of `POST /api/orders`: the persisted order (if `save()` was
reached), the catalog after whatever stock writes happened, and the
error reported, if any. -/
structure CreateOrderResult where
  order : Option Order
  catalog : List Product
  error : Option OrderError
deriving Repr

/-- `POST /api/orders`: validators (non-empty item list, integer quantities
at least 1, known payment method), the pricing loop, the 8% tax and
$100-free-shipping rules against `itemsPrice`, the silent coupon
discount, `totalPrice = itemsPrice + taxPrice + shippingPrice -
discountAmount`, persistence of the `pending` order (order-number and
initial-history hooks), then the stock-decrement loop. -/
def createOrderRoute (catalog : List Product) (userId : Nat)
    (reqItems : List OrderReqItem) (paymentMethod : String)
    (couponCode : Option String) (date : OrderDate)
    (lastOrderNumber : Option String) (now : Nat) : CreateOrderResult :=
  if reqItems.isEmpty then
    { order := none, catalog := catalog, error := some .badRequest }
  else if !(reqItems.all fun it => decide (1 ≤ it.quantity)) then
    { order := none, catalog := catalog, error := some .badRequest }
  else if !(["stripe", "razorpay", "paypal", "cash_on_delivery"].contains paymentMethod) then
    { order := none, catalog := catalog, error := some .badRequest }
  else
    match processOrderItems catalog reqItems with
    | .error e => { order := none, catalog := catalog, error := some e }
    | .ok (itemsPrice, lines) =>
      let taxPrice := itemsPrice * (0.08 : ℚ)
      let shippingPrice : ℚ := if itemsPrice ≥ 100 then 0 else 10
      let discountAmount := orderCouponDiscount couponCode itemsPrice
      let totalPrice := itemsPrice + taxPrice + shippingPrice - discountAmount
      let o : Order :=
        { user := userId, orderNumber := "", orderItems := lines,
          paymentMethod := paymentMethod, paymentResult := none,
          itemsPrice := itemsPrice, taxPrice := taxPrice,
          shippingPrice := shippingPrice, discountAmount := discountAmount,
          couponCode := couponCode, totalPrice := totalPrice,
          status := OrderStatus.pending, isPaid := false, paidAt := none,
          isDelivered := false, deliveredAt := none, shippedAt := none,
          cancelledAt := none, refundedAt := none, cancellationReason := none,
          trackingNumber := none, carrier := none, statusHistory := [] }
      let saved := o.saveNew date lastOrderNumber now
      let (catalog2, stockErr) := subtractStockLoop catalog reqItems
      { order := some saved, catalog := catalog2, error := stockErr }

/-- The `n`-th order number issued on one calendar day under sequential
checkouts: the route queries the most recent order created that day, so
order `k + 1` sees order `k` as `lastOrder`, and the first sees none. -/
def nthOrderNumber (date : OrderDate) : Nat → String
  | 0 => orderNumberString date none
  | k + 1 => orderNumberString date (some (nthOrderNumber date k))

/-- The derived-field identity claimed for carts:
`total = subtotal + tax + shipping - couponDiscount`. -/
def cartTotalsInv (c : Cart) : Prop :=
  c.total = c.subtotal + c.tax + c.shipping - c.couponDiscount

/-- Specification-level sum of an order's lines, Σ price × quantity over
the snapshotted line prices. -/
def orderItemsSum : List OrderItem → ℚ
  | [] => 0
  | l :: rest => l.price * (l.quantity : ℚ) + orderItemsSum rest

/-- The claimed order-number shape with an explicit sequence value:
`ORD` + 2-digit year + 2-digit month + 2-digit day + the zero-padded
sequence. -/
def orderNumberWithSeq (date : OrderDate) (seq : Nat) : String :=
  "ORD" ++ jsSubstrLast 2 (natToString date.year) ++
    jsPadStart 2 '0' (natToString date.month) ++
    jsPadStart 2 '0' (natToString date.day) ++
    jsPadStart 4 '0' (natToString seq)

/-! Concrete sample data used to exercise the theorems. -/

/-- One-product catalog for the cart scenario. -/
def demoCatalog : List Product :=
  [{ id := 1, name := "Widget", images := ["w.png"], price := 60,
     countInStock := 5, isActive := true, status := "active" }]

/-- The cart after adding one unit of the $60 product to a fresh cart. -/
def demoCart : Cart :=
  { items := [{ product := 1, name := "Widget", image := "w.png", price := 60,
                quantity := 1, variant := none }],
    couponCode := none, couponDiscount := 0,
    subtotal := 60, tax := 4.8, shipping := 10, total := 74.8 }

/-- The same cart after `applyCoupon("SAVE10")`. -/
def demoCartCoupon : Cart :=
  { items := [{ product := 1, name := "Widget", image := "w.png", price := 60,
                quantity := 1, variant := none }],
    couponCode := some "SAVE10", couponDiscount := 6,
    subtotal := 60, tax := 4.8, shipping := 10, total := 68.8 }

/-- `demoCart` after adding 12 more units of the same product: the line is
capped at 10. -/
def demoCartCapped : Cart :=
  { items := [{ product := 1, name := "Widget", image := "w.png", price := 60,
                quantity := 10, variant := none }],
    couponCode := none, couponDiscount := 0,
    subtotal := 600, tax := 48, shipping := 0, total := 648 }

/-- Cart holding one $25 line (quantity 5) with the SAVE10 coupon applied. -/
def sampleCouponCart : Cart :=
  { items := [{ product := 1, name := "Gadget", image := "", price := 25,
                quantity := 5, variant := none }],
    couponCode := some "SAVE10", couponDiscount := 6,
    subtotal := 125, tax := 10, shipping := 0, total := 129 }

/-- `sampleCouponCart` after adding 2 more units. -/
def sampleCouponAdd : Cart :=
  { items := [{ product := 1, name := "Gadget", image := "", price := 25,
                quantity := 7, variant := none }],
    couponCode := some "SAVE10", couponDiscount := 6,
    subtotal := 175, tax := 14, shipping := 0, total := 183 }

/-- `sampleCouponCart` after setting the line quantity to 3. -/
def sampleCouponUpd : Cart :=
  { items := [{ product := 1, name := "Gadget", image := "", price := 25,
                quantity := 3, variant := none }],
    couponCode := some "SAVE10", couponDiscount := 6,
    subtotal := 75, tax := 6, shipping := 10, total := 85 }

/-- `sampleCouponCart` after removing its only line: the stale discount still
enters the total. -/
def sampleCouponRem : Cart :=
  { items := [], couponCode := some "SAVE10", couponDiscount := 6,
    subtotal := 0, tax := 0, shipping := 10, total := 4 }

/-- `sampleCouponCart` after `clearCart`. -/
def sampleCouponClear : Cart :=
  { items := [], couponCode := none, couponDiscount := 0,
    subtotal := 0, tax := 0, shipping := 10, total := 10 }

/-- `sampleCouponCart` after `removeCoupon`. -/
def sampleCouponNone : Cart :=
  { items := [{ product := 1, name := "Gadget", image := "", price := 25,
                quantity := 5, variant := none }],
    couponCode := none, couponDiscount := 0,
    subtotal := 125, tax := 10, shipping := 0, total := 135 }

/-- A pending, unpaid order for user 7 (monetary values chosen integral so
that concrete runs evaluate by `decide`). -/
def baseOrder : Order :=
  { user := 7, orderNumber := "ORD2601010001",
    orderItems := [{ product := 1, name := "Widget", image := "w.png",
                     price := 50, quantity := 1, variant := none }],
    paymentMethod := "stripe", paymentResult := none,
    itemsPrice := 50, taxPrice := 4, shippingPrice := 10,
    discountAmount := 0, couponCode := none, totalPrice := 64,
    status := OrderStatus.pending, isPaid := false, paidAt := none,
    isDelivered := false, deliveredAt := none, shippedAt := none,
    cancelledAt := none, refundedAt := none, cancellationReason := none,
    trackingNumber := none, carrier := none,
    statusHistory := [{ status := OrderStatus.pending, timestamp := 0,
                        note := "Order created", updatedBy := none }] }

/-- Payment result used in the payment scenarios. -/
def samplePR : PaymentResult := { id := "pi_1", status := "succeeded" }

/-- A second, distinct payment result. -/
def samplePR2 : PaymentResult := { id := "pi_2", status := "succeeded" }

/-- `baseOrder` after a successful pay call at tick 5. -/
def samplePaidOrder : Order :=
  { baseOrder with
      isPaid := true, paidAt := some 5, paymentResult := some samplePR,
      status := OrderStatus.processing,
      statusHistory := baseOrder.statusHistory ++
        [{ status := OrderStatus.processing, timestamp := 5,
           note := "Status updated to processing", updatedBy := none }] }

/-- `baseOrder` already shipped. -/
def sampleShippedOrder : Order :=
  { baseOrder with status := OrderStatus.shipped, shippedAt := some 1 }

/-- `baseOrder` cancelled while still unpaid. -/
def sampleCancelledUnpaid : Order :=
  { baseOrder with
      status := OrderStatus.cancelled, cancelledAt := some 2,
      cancellationReason := some "Cancelled by user" }

/-- `baseOrder` after `cancelOrder` at tick 9: both the handler entry and the
hook entry are appended. -/
def sampleCancelledTwice : Order :=
  { baseOrder with
      status := OrderStatus.cancelled, cancelledAt := some 9,
      cancellationReason := some "changed my mind",
      statusHistory := baseOrder.statusHistory ++
        [{ status := OrderStatus.cancelled, timestamp := 9,
           note := "Order cancelled: changed my mind", updatedBy := some 7 },
         { status := OrderStatus.cancelled, timestamp := 9,
           note := "Status updated to cancelled", updatedBy := none }] }

/-- Catalog for the checkout scenario: one active $50 product, stock 5. -/
def sampleOrderCatalog : List Product :=
  [{ id := 1, name := "Widget", images := ["w.png"], price := 50,
     countInStock := 5, isActive := true, status := "active" }]

/-- The order produced by checking out 2 units of the $50 product on
2026-10-11 as the first order of the day. -/
def sampleCreatedOrder : Order :=
  { user := 7, orderNumber := "ORD2610110001",
    orderItems := [{ product := 1, name := "Widget", image := "w.png",
                     price := 50, quantity := 2, variant := none }],
    paymentMethod := "stripe", paymentResult := none,
    itemsPrice := 100, taxPrice := 8, shippingPrice := 0,
    discountAmount := 0, couponCode := none, totalPrice := 108,
    status := OrderStatus.pending, isPaid := false, paidAt := none,
    isDelivered := false, deliveredAt := none, shippedAt := none,
    cancelledAt := none, refundedAt := none, cancellationReason := none,
    trackingNumber := none, carrier := none,
    statusHistory := [{ status := OrderStatus.pending, timestamp := 0,
                        note := "Order created", updatedBy := none }] }

/-- `sampleOrderCatalog` after the checkout decremented the stock. -/
def sampleCatalogAfter : List Product :=
  [{ id := 1, name := "Widget", images := ["w.png"], price := 50,
     countInStock := 3, isActive := true, status := "active" }]

/-! Basic lemmas about the cart save pipeline. -/

theorem saveOrThrow_ok_iff {c0 c2 : Cart} :
    saveOrThrow (Cart.save c0) = .ok c2 ↔
      (c0.items.all CartItem.quantityOK = true ∧ c2 = c0.recomputeTotals) := by
  unfold Cart.save saveOrThrow
  by_cases h : c0.items.all CartItem.quantityOK
  · simp [h, eq_comm]
  · simp [h]

theorem recomputeTotals_items (c : Cart) : c.recomputeTotals.items = c.items := rfl

theorem recomputeTotals_couponCode (c : Cart) :
    c.recomputeTotals.couponCode = c.couponCode := rfl

theorem recomputeTotals_couponDiscount (c : Cart) :
    c.recomputeTotals.couponDiscount = c.couponDiscount := rfl

theorem cartTotalsInv_recomputeTotals (c : Cart) : cartTotalsInv c.recomputeTotals := by
  simp [cartTotalsInv, Cart.recomputeTotals]

theorem addItem_ok_recompute {catalog : List Product} {c : Cart} {pid : Nat}
    {q : Int} {v : Option Variant} {c2 : Cart}
    (h : Cart.addItem catalog c pid q v = .ok c2) :
    ∃ c0 : Cart, c2 = c0.recomputeTotals ∧ c0.couponCode = c.couponCode ∧
      c0.couponDiscount = c.couponDiscount ∧ c0.items.all CartItem.quantityOK = true := by
  unfold Cart.addItem at h
  split at h
  · rcases saveOrThrow_ok_iff.mp h with ⟨hall, rfl⟩
    exact ⟨_, rfl, rfl, rfl, hall⟩
  · split at h
    · exact absurd h (by simp)
    · split at h
      · exact absurd h (by simp)
      · rcases saveOrThrow_ok_iff.mp h with ⟨hall, rfl⟩
        exact ⟨_, rfl, rfl, rfl, hall⟩

theorem updateItemQuantity_ok_recompute {c : Cart} {pid : Nat} {q : Int}
    {v : Option Variant} {c2 : Cart}
    (h : Cart.updateItemQuantity c pid q v = .ok c2) :
    ∃ c0 : Cart, c2 = c0.recomputeTotals ∧ c0.couponCode = c.couponCode ∧
      c0.couponDiscount = c.couponDiscount ∧ c0.items.all CartItem.quantityOK = true := by
  unfold Cart.updateItemQuantity at h
  split at h
  · exact absurd h (by simp)
  · split at h
    · rcases saveOrThrow_ok_iff.mp h with ⟨hall, rfl⟩
      exact ⟨_, rfl, rfl, rfl, hall⟩
    · rcases saveOrThrow_ok_iff.mp h with ⟨hall, rfl⟩
      exact ⟨_, rfl, rfl, rfl, hall⟩

theorem removeItem_ok_recompute {c : Cart} {pid : Nat} {v : Option Variant} {c2 : Cart}
    (h : Cart.removeItem c pid v = .ok c2) :
    ∃ c0 : Cart, c2 = c0.recomputeTotals ∧ c0.couponCode = c.couponCode ∧
      c0.couponDiscount = c.couponDiscount ∧ c0.items.all CartItem.quantityOK = true := by
  unfold Cart.removeItem at h
  split at h
  · exact absurd h (by simp)
  · rcases saveOrThrow_ok_iff.mp h with ⟨hall, rfl⟩
    exact ⟨_, rfl, rfl, rfl, hall⟩

theorem clearCart_ok_recompute {c : Cart} {c2 : Cart}
    (h : Cart.clearCart c = .ok c2) :
    ∃ c0 : Cart, c2 = c0.recomputeTotals ∧ c0.couponCode = none ∧
      c0.couponDiscount = 0 := by
  unfold Cart.clearCart at h
  rcases saveOrThrow_ok_iff.mp h with ⟨_, rfl⟩
  exact ⟨_, rfl, rfl, rfl⟩

theorem removeCoupon_ok_recompute {c : Cart} {c2 : Cart}
    (h : Cart.removeCoupon c = .ok c2) :
    ∃ c0 : Cart, c2 = c0.recomputeTotals ∧ c0.couponCode = none ∧
      c0.couponDiscount = 0 := by
  unfold Cart.removeCoupon at h
  rcases saveOrThrow_ok_iff.mp h with ⟨_, rfl⟩
  exact ⟨_, rfl, rfl, rfl⟩

theorem applyCoupon_ok_recompute {c : Cart} {code : String} {c2 : Cart}
    (h : Cart.applyCoupon c code = .ok c2) :
    ∃ c0 : Cart, c2 = c0.recomputeTotals := by
  unfold Cart.applyCoupon at h
  rcases htab : couponTable (jsToUpperCase code) with _ | cp
  · simp only [htab] at h
    exact absurd h (by simp)
  · simp only [htab] at h
    split at h
    · exact absurd h (by simp)
    · rcases saveOrThrow_ok_iff.mp h with ⟨_, rfl⟩
      exact ⟨_, rfl⟩

theorem cartTotalsInv_runCartOp (catalog : List Product) (c : Cart) (op : CartOp)
    (h : cartTotalsInv c) : cartTotalsInv (runCartOp catalog c op) := by
  cases op with
  | add pid q v =>
    cases hr : Cart.addItem catalog c pid q v with
    | ok c2 =>
      rcases addItem_ok_recompute hr with ⟨c0, rfl, _, _, _⟩
      simpa [runCartOp, hr] using cartTotalsInv_recomputeTotals c0
    | error e => simpa [runCartOp, hr] using h
  | update pid q v =>
    cases hr : Cart.updateItemQuantity c pid q v with
    | ok c2 =>
      rcases updateItemQuantity_ok_recompute hr with ⟨c0, rfl, _, _, _⟩
      simpa [runCartOp, hr] using cartTotalsInv_recomputeTotals c0
    | error e => simpa [runCartOp, hr] using h
  | remove pid v =>
    cases hr : Cart.removeItem c pid v with
    | ok c2 =>
      rcases removeItem_ok_recompute hr with ⟨c0, rfl, _, _⟩
      simpa [runCartOp, hr] using cartTotalsInv_recomputeTotals c0
    | error e => simpa [runCartOp, hr] using h
  | clear =>
    cases hr : Cart.clearCart c with
    | ok c2 =>
      rcases clearCart_ok_recompute hr with ⟨c0, rfl, _, _⟩
      simpa [runCartOp, hr] using cartTotalsInv_recomputeTotals c0
    | error e => simpa [runCartOp, hr] using h
  | coupon code =>
    cases hr : Cart.applyCoupon c code with
    | ok c2 =>
      rcases applyCoupon_ok_recompute hr with ⟨c0, rfl⟩
      simpa [runCartOp, hr] using cartTotalsInv_recomputeTotals c0
    | error e => simpa [runCartOp, hr] using h
  | uncoupon =>
    cases hr : Cart.removeCoupon c with
    | ok c2 =>
      rcases removeCoupon_ok_recompute hr with ⟨c0, rfl, _, _⟩
      simpa [runCartOp, hr] using cartTotalsInv_recomputeTotals c0
    | error e => simpa [runCartOp, hr] using h

/-- C1: for every cart reachable from a fresh cart by any sequence of the
cart mutations (addItem, updateItemQuantity, removeItem, applyCoupon, and
also clearCart/removeCoupon), each followed by its save-time
recomputation, the derived fields satisfy
`total = subtotal + tax + shipping - couponDiscount`. -/
theorem cart_total_invariant (catalog : List Product) (ops : List CartOp) :
    cartTotalsInv (runCartOps catalog emptyCart ops) := by
  have hgen : ∀ (l : List CartOp) (c : Cart), cartTotalsInv c →
      cartTotalsInv (runCartOps catalog c l) := by
    intro l
    induction l with
    | nil => intro c h; exact h
    | cons op rest ih =>
      intro c h
      have h2 := cartTotalsInv_runCartOp catalog c op h
      simpa [runCartOps] using ih _ h2
  exact hgen ops emptyCart (by simp [cartTotalsInv, emptyCart])

theorem cartSubtotal_eq_sum (items : List CartItem) :
    cartSubtotal items = (items.map (fun it => it.linePrice * (it.quantity : ℚ))).sum := by
  have hgen : ∀ (l : List CartItem) (acc : ℚ),
      l.foldl (fun a it => a + it.linePrice * (it.quantity : ℚ)) acc =
        acc + (l.map (fun it => it.linePrice * (it.quantity : ℚ))).sum := by
    intro l
    induction l with
    | nil => intro acc; simp
    | cons it rest ih => intro acc; simp [ih, add_assoc]
  simpa [cartSubtotal] using hgen items 0

/-- C8: the save-time recomputation sets
`subtotal = Σ (unitPrice + variantAdditionalPrice) × quantity`,
`tax = subtotal × 0.08`, `shipping = 0` iff `subtotal ≥ 100` else `10`, and
`total = subtotal + tax + shipping - couponDiscount`; and the concrete
scenario (one $60 line, coupon SAVE10) yields subtotal 60, discount 6,
tax 4.8, shipping 10, total 68.8. -/
theorem recompute_rule_and_save10_scenario :
    (∀ c : Cart,
      c.recomputeTotals.subtotal =
        (c.items.map (fun it => it.linePrice * (it.quantity : ℚ))).sum ∧
      c.recomputeTotals.tax = c.recomputeTotals.subtotal * (0.08 : ℚ) ∧
      c.recomputeTotals.shipping =
        (if c.recomputeTotals.subtotal ≥ 100 then (0 : ℚ) else 10) ∧
      c.recomputeTotals.total =
        c.recomputeTotals.subtotal + c.recomputeTotals.tax +
          c.recomputeTotals.shipping - c.couponDiscount) ∧
    Cart.addItem demoCatalog emptyCart 1 1 none = .ok demoCart ∧
    Cart.applyCoupon demoCart "SAVE10" = .ok demoCartCoupon ∧
    demoCartCoupon.subtotal = 60 ∧ demoCartCoupon.couponDiscount = 6 ∧
    demoCartCoupon.tax = 4.8 ∧ demoCartCoupon.shipping = 10 ∧
    demoCartCoupon.total = 68.8 := by
  refine ⟨fun c => ⟨cartSubtotal_eq_sum c.items, rfl, rfl, rfl⟩, ?_, ?_, rfl, rfl, rfl, rfl, rfl⟩
  · norm_num [Cart.addItem, Cart.hasLine, findProduct, List.find?, CartItem.sameLine,
      saveOrThrow, Cart.save, CartItem.quantityOK, Cart.recomputeTotals, cartSubtotal,
      CartItem.linePrice, emptyCart, demoCatalog, demoCart, List.all]
  · have hup : jsToUpperCase "SAVE10" = "SAVE10" := by decide
    norm_num [Cart.applyCoupon, hup, couponTable, saveOrThrow, Cart.save,
      CartItem.quantityOK, Cart.recomputeTotals, cartSubtotal, CartItem.linePrice,
      demoCart, demoCartCoupon, List.all]

theorem all_quantityOK_bounds {items : List CartItem}
    (h : items.all CartItem.quantityOK = true) :
    ∀ it ∈ items, 1 ≤ it.quantity ∧ it.quantity ≤ 10 := by
  intro it hit
  have hq := List.all_eq_true.mp h it hit
  simpa [CartItem.quantityOK] using hq

theorem addItem_cap_fun :
    (fun it : CartItem =>
      let q2 := it.quantity + q
      { it with quantity := if q2 > 10 then 10 else q2 }) =
    (fun it : CartItem => { it with quantity := min (it.quantity + q) 10 }) := by
  funext it
  have hq : (if it.quantity + q > 10 then (10 : ℤ) else it.quantity + q) =
      min (it.quantity + q) 10 := by
    rcases le_or_lt (it.quantity + q) 10 with h10 | h10
    · rw [if_neg (by omega), min_eq_left h10]
    · rw [if_pos h10, min_eq_right (by omega)]
  simp only [hq]

/-- C6: a successful `addItem` leaves every line quantity in [1, 10]; adding
to an existing (product, variant) line caps the summed quantity at 10,
and a fresh line stores `min(quantity, 10)`. -/
theorem addItem_quantity_range {catalog : List Product} {c : Cart} {pid : Nat}
    {q : Int} {v : Option Variant} {c2 : Cart}
    (h : Cart.addItem catalog c pid q v = .ok c2) :
    (∀ it ∈ c2.items, 1 ≤ it.quantity ∧ it.quantity ≤ 10) ∧
    (c.hasLine pid v = true →
      c2.items = updateFirstLine pid v
        (fun it => { it with quantity := min (it.quantity + q) 10 }) c.items) ∧
    (c.hasLine pid v = false →
      ∃ p, findProduct catalog pid = some p ∧
        c2.items = c.items ++
          [{ product := pid, name := p.name, image := (p.images.head?).getD "",
             price := p.price, quantity := min q 10, variant := v }]) := by
  by_cases hl : c.hasLine pid v = true
  · rw [Cart.addItem, if_pos hl] at h
    rcases saveOrThrow_ok_iff.mp h with ⟨hall, rfl⟩
    refine ⟨all_quantityOK_bounds hall, fun _ => ?_, fun hfalse => ?_⟩
    · rw [recomputeTotals_items]
      show updateFirstLine pid v _ c.items = _
      rw [addItem_cap_fun]
    · simp [hl] at hfalse
  · have hl2 : c.hasLine pid v = false := by
      simpa using hl
    rw [Cart.addItem, if_neg (by simp [hl2])] at h
    cases hp : findProduct catalog pid with
    | none =>
      simp only [hp] at h
      exact Except.noConfusion h
    | some p =>
      simp only [hp] at h
      split at h
      · exact Except.noConfusion h
      · rcases saveOrThrow_ok_iff.mp h with ⟨hall, rfl⟩
        refine ⟨all_quantityOK_bounds hall, fun htrue => ?_, fun _ => ⟨p, rfl, ?_⟩⟩
        · simp [hl2] at htrue
        · rw [recomputeTotals_items]

theorem addItem_quantity_range_witness :
    Cart.addItem [] demoCart 1 12 none = .ok demoCartCapped ∧
    demoCartCapped.items = updateFirstLine 1 none
      (fun it => { it with quantity := min (it.quantity + 12) 10 }) demoCart.items := by
  have h : Cart.addItem [] demoCart 1 12 none = .ok demoCartCapped := by
    norm_num [Cart.addItem, Cart.hasLine, CartItem.sameLine, updateFirstLine,
      saveOrThrow, Cart.save, CartItem.quantityOK, Cart.recomputeTotals,
      cartSubtotal, CartItem.linePrice, demoCart, demoCartCapped, List.all, List.any]
  exact ⟨h, (addItem_quantity_range h).2.1 (by decide)⟩

theorem coupon_frame_of_recompute {c c0 : Cart}
    (hcc : c0.couponCode = c.couponCode) (hcd : c0.couponDiscount = c.couponDiscount) :
    c0.recomputeTotals.couponCode = c.couponCode ∧
    c0.recomputeTotals.couponDiscount = c.couponDiscount ∧
    c0.recomputeTotals.total = c0.recomputeTotals.subtotal + c0.recomputeTotals.tax +
      c0.recomputeTotals.shipping - c.couponDiscount := by
  refine ⟨by rw [recomputeTotals_couponCode, hcc],
    by rw [recomputeTotals_couponDiscount, hcd], ?_⟩
  have hinv := cartTotalsInv_recomputeTotals c0
  unfold cartTotalsInv at hinv
  rw [recomputeTotals_couponDiscount, hcd] at hinv
  exact hinv

/-- C9: the item mutations addItem, updateItemQuantity and removeItem leave
couponCode and couponDiscount unchanged (the discount is never
re-resolved, so the recomputed total still subtracts the stale
discount), while clearCart and removeCoupon reset both fields. -/
theorem item_mutations_preserve_coupon {catalog : List Product} {c : Cart}
    {pid : Nat} {q : Int} {v : Option Variant} {ca cu cr cl cn : Cart} :
    (Cart.addItem catalog c pid q v = .ok ca →
      ca.couponCode = c.couponCode ∧ ca.couponDiscount = c.couponDiscount ∧
      ca.total = ca.subtotal + ca.tax + ca.shipping - c.couponDiscount) ∧
    (Cart.updateItemQuantity c pid q v = .ok cu →
      cu.couponCode = c.couponCode ∧ cu.couponDiscount = c.couponDiscount ∧
      cu.total = cu.subtotal + cu.tax + cu.shipping - c.couponDiscount) ∧
    (Cart.removeItem c pid v = .ok cr →
      cr.couponCode = c.couponCode ∧ cr.couponDiscount = c.couponDiscount ∧
      cr.total = cr.subtotal + cr.tax + cr.shipping - c.couponDiscount) ∧
    (Cart.clearCart c = .ok cl → cl.couponCode = none ∧ cl.couponDiscount = 0) ∧
    (Cart.removeCoupon c = .ok cn → cn.couponCode = none ∧ cn.couponDiscount = 0) := by
  refine ⟨fun h => ?_, fun h => ?_, fun h => ?_, fun h => ?_, fun h => ?_⟩
  · rcases addItem_ok_recompute h with ⟨c0, rfl, hcc, hcd, _⟩
    exact coupon_frame_of_recompute hcc hcd
  · rcases updateItemQuantity_ok_recompute h with ⟨c0, rfl, hcc, hcd, _⟩
    exact coupon_frame_of_recompute hcc hcd
  · rcases removeItem_ok_recompute h with ⟨c0, rfl, hcc, hcd, _⟩
    exact coupon_frame_of_recompute hcc hcd
  · rcases clearCart_ok_recompute h with ⟨c0, rfl, hcc, hcd⟩
    exact ⟨by rw [recomputeTotals_couponCode, hcc],
      by rw [recomputeTotals_couponDiscount, hcd]⟩
  · rcases removeCoupon_ok_recompute h with ⟨c0, rfl, hcc, hcd⟩
    exact ⟨by rw [recomputeTotals_couponCode, hcc],
      by rw [recomputeTotals_couponDiscount, hcd]⟩

theorem item_mutations_preserve_coupon_witness :
    Cart.addItem [] sampleCouponCart 1 2 none = .ok sampleCouponAdd ∧
    Cart.updateItemQuantity sampleCouponCart 1 3 none = .ok sampleCouponUpd ∧
    Cart.removeItem sampleCouponCart 1 none = .ok sampleCouponRem ∧
    Cart.clearCart sampleCouponCart = .ok sampleCouponClear ∧
    Cart.removeCoupon sampleCouponCart = .ok sampleCouponNone ∧
    sampleCouponAdd.couponCode = sampleCouponCart.couponCode ∧
    sampleCouponAdd.couponDiscount = sampleCouponCart.couponDiscount ∧
    sampleCouponUpd.couponCode = sampleCouponCart.couponCode ∧
    sampleCouponRem.couponDiscount = sampleCouponCart.couponDiscount ∧
    sampleCouponClear.couponCode = none ∧ sampleCouponClear.couponDiscount = 0 ∧
    sampleCouponNone.couponCode = none ∧ sampleCouponNone.couponDiscount = 0 := by
  have ha : Cart.addItem [] sampleCouponCart 1 2 none = .ok sampleCouponAdd := by
    norm_num [Cart.addItem, Cart.hasLine, CartItem.sameLine, updateFirstLine,
      saveOrThrow, Cart.save, CartItem.quantityOK, Cart.recomputeTotals,
      cartSubtotal, CartItem.linePrice, sampleCouponCart, sampleCouponAdd,
      List.all, List.any]
  have hu : Cart.updateItemQuantity sampleCouponCart 1 3 none = .ok sampleCouponUpd := by
    norm_num [Cart.updateItemQuantity, Cart.hasLine, CartItem.sameLine, updateFirstLine,
      saveOrThrow, Cart.save, CartItem.quantityOK, Cart.recomputeTotals,
      cartSubtotal, CartItem.linePrice, sampleCouponCart, sampleCouponUpd,
      List.all, List.any]
  have hr : Cart.removeItem sampleCouponCart 1 none = .ok sampleCouponRem := by
    norm_num [Cart.removeItem, Cart.hasLine, CartItem.sameLine, removeFirstLine,
      saveOrThrow, Cart.save, CartItem.quantityOK, Cart.recomputeTotals,
      cartSubtotal, CartItem.linePrice, sampleCouponCart, sampleCouponRem,
      List.all, List.any]
  have hc : Cart.clearCart sampleCouponCart = .ok sampleCouponClear := by
    norm_num [Cart.clearCart, saveOrThrow, Cart.save, CartItem.quantityOK,
      Cart.recomputeTotals, cartSubtotal, CartItem.linePrice,
      sampleCouponCart, sampleCouponClear, List.all]
  have hn : Cart.removeCoupon sampleCouponCart = .ok sampleCouponNone := by
    norm_num [Cart.removeCoupon, saveOrThrow, Cart.save, CartItem.quantityOK,
      Cart.recomputeTotals, cartSubtotal, CartItem.linePrice,
      sampleCouponCart, sampleCouponNone, List.all]
  have thm2 := @item_mutations_preserve_coupon [] sampleCouponCart 1 2 none
    sampleCouponAdd sampleCouponUpd sampleCouponRem sampleCouponClear sampleCouponNone
  have thm3 := @item_mutations_preserve_coupon [] sampleCouponCart 1 3 none
    sampleCouponAdd sampleCouponUpd sampleCouponRem sampleCouponClear sampleCouponNone
  exact ⟨ha, hu, hr, hc, hn,
    (thm2.1 ha).1, (thm2.1 ha).2.1,
    (thm3.2.1 hu).1,
    (thm2.2.2.1 hr).2.1,
    (thm2.2.2.2.1 hc).1, (thm2.2.2.2.1 hc).2,
    (thm2.2.2.2.2 hn).1, (thm2.2.2.2.2 hn).2⟩

/-! Lemmas about the order save hooks. -/

theorem statusChangeHook_proj (o : Order) (b1 b2 : Bool) (now : Nat) :
    (o.statusChangeHook b1 b2 now).status = o.status ∧
    (o.statusChangeHook b1 b2 now).isPaid = o.isPaid ∧
    (o.statusChangeHook b1 b2 now).paidAt = o.paidAt ∧
    (o.statusChangeHook b1 b2 now).paymentResult = o.paymentResult ∧
    (o.statusChangeHook b1 b2 now).user = o.user := by
  unfold Order.statusChangeHook
  split
  · dsimp only
    split <;>
      first
        | (split_ifs <;> exact ⟨rfl, rfl, rfl, rfl, rfl⟩)
        | exact ⟨rfl, rfl, rfl, rfl, rfl⟩
  · exact ⟨rfl, rfl, rfl, rfl, rfl⟩

theorem statusChangeHook_history (o : Order) (b1 b2 : Bool) (now : Nat) :
    (o.statusChangeHook b1 b2 now).statusHistory =
      o.statusHistory ++
        (if (b2 && !b1) = true then
          [{ status := o.status, timestamp := now,
             note := "Status updated to " ++ o.status.name, updatedBy := none }]
         else []) := by
  unfold Order.statusChangeHook
  split
  next hcond =>
    dsimp only
    split <;>
      first
        | (split_ifs <;> rfl)
        | rfl
  next hcond =>
    simp

theorem initHistoryHook_proj (o : Order) (b : Bool) (now : Nat) :
    (o.initHistoryHook b now).status = o.status ∧
    (o.initHistoryHook b now).isPaid = o.isPaid ∧
    (o.initHistoryHook b now).paidAt = o.paidAt ∧
    (o.initHistoryHook b now).paymentResult = o.paymentResult ∧
    (o.initHistoryHook b now).user = o.user := by
  unfold Order.initHistoryHook
  split <;> exact ⟨rfl, rfl, rfl, rfl, rfl⟩

theorem initHistoryHook_history (o : Order) (b : Bool) (now : Nat) :
    (o.initHistoryHook b now).statusHistory =
      o.statusHistory ++
        (if b = true then
          [{ status := o.status, timestamp := now,
             note := "Order created", updatedBy := none }]
         else []) := by
  unfold Order.initHistoryHook
  split
  next hb => rfl
  next hb => simp

theorem saveExisting_status (o : Order) (sm : Bool) (now : Nat) :
    (o.saveExisting sm now).status = o.status := by
  unfold Order.saveExisting
  rw [(initHistoryHook_proj _ false now).1, (statusChangeHook_proj o false sm now).1]

theorem saveExisting_isPaid (o : Order) (sm : Bool) (now : Nat) :
    (o.saveExisting sm now).isPaid = o.isPaid := by
  unfold Order.saveExisting
  rw [(initHistoryHook_proj _ false now).2.1, (statusChangeHook_proj o false sm now).2.1]

theorem saveExisting_paidAt (o : Order) (sm : Bool) (now : Nat) :
    (o.saveExisting sm now).paidAt = o.paidAt := by
  unfold Order.saveExisting
  rw [(initHistoryHook_proj _ false now).2.2.1, (statusChangeHook_proj o false sm now).2.2.1]

theorem saveExisting_paymentResult (o : Order) (sm : Bool) (now : Nat) :
    (o.saveExisting sm now).paymentResult = o.paymentResult := by
  unfold Order.saveExisting
  rw [(initHistoryHook_proj _ false now).2.2.2.1,
    (statusChangeHook_proj o false sm now).2.2.2.1]

theorem saveExisting_user (o : Order) (sm : Bool) (now : Nat) :
    (o.saveExisting sm now).user = o.user := by
  unfold Order.saveExisting
  rw [(initHistoryHook_proj _ false now).2.2.2.2,
    (statusChangeHook_proj o false sm now).2.2.2.2]

theorem saveExisting_history (o : Order) (sm : Bool) (now : Nat) :
    (o.saveExisting sm now).statusHistory =
      o.statusHistory ++
        (if sm = true then
          [{ status := o.status, timestamp := now,
             note := "Status updated to " ++ o.status.name, updatedBy := none }]
         else []) := by
  unfold Order.saveExisting
  rw [initHistoryHook_history, statusChangeHook_history]
  have hs := (statusChangeHook_proj o false sm now).1
  simp [hs]

theorem updatePaymentStatus_isPaid (o : Order) (pr : PaymentResult) (now : Nat) :
    (o.updatePaymentStatus pr now).isPaid = true := by
  unfold Order.updatePaymentStatus
  split <;> rw [saveExisting_isPaid]

theorem updatePaymentStatus_paidAt (o : Order) (pr : PaymentResult) (now : Nat) :
    (o.updatePaymentStatus pr now).paidAt = some now := by
  unfold Order.updatePaymentStatus
  split <;> rw [saveExisting_paidAt]

theorem updatePaymentStatus_paymentResult (o : Order) (pr : PaymentResult) (now : Nat) :
    (o.updatePaymentStatus pr now).paymentResult = some pr := by
  unfold Order.updatePaymentStatus
  split <;> rw [saveExisting_paymentResult]

theorem updatePaymentStatus_user (o : Order) (pr : PaymentResult) (now : Nat) :
    (o.updatePaymentStatus pr now).user = o.user := by
  unfold Order.updatePaymentStatus
  split <;> rw [saveExisting_user]

theorem updatePaymentStatus_status (o : Order) (pr : PaymentResult) (now : Nat) :
    (o.updatePaymentStatus pr now).status =
      (if o.status = OrderStatus.pending then OrderStatus.processing else o.status) := by
  unfold Order.updatePaymentStatus
  split
  next hb =>
    rw [saveExisting_status, if_pos (by simpa using hb)]
  next hb =>
    rw [saveExisting_status, if_neg (by simpa using hb)]

theorem updatePaymentStatus_history (o : Order) (pr : PaymentResult) (now : Nat) :
    (o.updatePaymentStatus pr now).statusHistory =
      o.statusHistory ++
        (if o.status = OrderStatus.pending then
          [{ status := OrderStatus.processing, timestamp := now,
             note := "Status updated to processing", updatedBy := none }]
         else []) := by
  unfold Order.updatePaymentStatus
  split
  next hb =>
    have hps : o.status = OrderStatus.pending := by simpa using hb
    simp [saveExisting_history, hps, OrderStatus.name]
  next hb =>
    have hps : ¬o.status = OrderStatus.pending := by simpa using hb
    simp [saveExisting_history, hps]

theorem cancelOrder_ok_history {o : Order} {reason : String} {uid now : Nat} {o2 : Order}
    (h : o.cancelOrder reason uid now = .ok o2) :
    o2.statusHistory =
      o.statusHistory ++
        [{ status := OrderStatus.cancelled, timestamp := now,
           note := "Order cancelled: " ++ reason, updatedBy := some uid }] ++
        (if o.status = OrderStatus.cancelled then []
         else [{ status := OrderStatus.cancelled, timestamp := now,
                 note := "Status updated to cancelled", updatedBy := none }]) := by
  unfold Order.cancelOrder at h
  split at h
  · exact Except.noConfusion h
  · injection h with h1
    subst h1
    rw [saveExisting_history]
    by_cases hc : o.status = OrderStatus.cancelled
    · simp [hc]
    · have hb : (!(o.status == OrderStatus.cancelled)) = true := by
        simp [hc]
      rw [if_pos hb, if_neg hc]
      simp [List.append_assoc, OrderStatus.name]

theorem adminUpdateStatus_history (o : Order) (ns : OrderStatus)
    (tn carrier note : Option String) (adminId now : Nat) :
    (adminUpdateStatusRoute o ns tn carrier note adminId now).statusHistory =
      o.statusHistory ++
        [{ status := ns, timestamp := now,
           note := note.getD ("Status updated to " ++ ns.name ++ " by admin"),
           updatedBy := some adminId }] ++
        (if o.status = ns then []
         else [{ status := ns, timestamp := now,
                 note := "Status updated to " ++ ns.name, updatedBy := none }]) := by
  unfold adminUpdateStatusRoute
  rw [saveExisting_history]
  by_cases hc : o.status = ns
  · simp [hc]
  · have hb : (!(o.status == ns)) = true := by simp [hc]
    rw [if_pos hb, if_neg hc]

/-- C4: once an order is paid, a second pay call is rejected with
"Order is already paid" before `updatePaymentStatus` runs, and the
Stripe webhook's success handler returns the order unchanged — so
isPaid, paidAt and paymentResult keep their values from the first call
and no further status transition happens. -/
theorem pay_already_paid_idempotent {requester : Nat} {o : Order}
    {pr pr2 : PaymentResult} {t t2 : Nat} {o1 : Order}
    (h : payOrderRoute requester o pr t = .ok o1)
    (hid : pr2.id ≠ "") (hst : pr2.status ≠ "") :
    payOrderRoute requester o1 pr2 t2 = .error OrderError.alreadyPaid ∧
    stripeWebhookPaymentSucceeded o1 pr2 t2 = o1 := by
  unfold payOrderRoute at h
  split at h
  · exact Except.noConfusion h
  split at h
  · exact Except.noConfusion h
  next hauth =>
    split at h
    · exact Except.noConfusion h
    next hpaid0 =>
      injection h with h1
      subst h1
      have hpaid : (o.updatePaymentStatus pr t).isPaid = true :=
        updatePaymentStatus_isPaid o pr t
      have huser : (o.updatePaymentStatus pr t).user = o.user :=
        updatePaymentStatus_user o pr t
      constructor
      · unfold payOrderRoute
        rw [if_neg (by simp [hid, hst]), if_neg (by simp [huser]; simpa using hauth),
          if_pos hpaid]
      · unfold stripeWebhookPaymentSucceeded
        rw [if_neg (by simp [hpaid])]

theorem pay_already_paid_idempotent_witness :
    payOrderRoute 7 baseOrder samplePR 5 = .ok samplePaidOrder ∧
    payOrderRoute 7 samplePaidOrder samplePR2 6 = .error OrderError.alreadyPaid ∧
    stripeWebhookPaymentSucceeded samplePaidOrder samplePR2 6 = samplePaidOrder := by
  have h : payOrderRoute 7 baseOrder samplePR 5 = .ok samplePaidOrder := rfl
  have hrest := @pay_already_paid_idempotent 7 baseOrder samplePR samplePR2 5 6
    samplePaidOrder h (by decide) (by decide)
  exact ⟨h, hrest.1, hrest.2⟩

/-- C5: cancelling a shipped or delivered order fails with the
invalid-transition error and the route returns without writing: the
order (status and statusHistory included) and the whole catalog are
unchanged. -/
theorem cancel_shipped_delivered_fails {catalog : List Product} {o : Order}
    {requester : Nat} {reason : Option String} {now : Nat}
    (hstat : o.status = OrderStatus.shipped ∨ o.status = OrderStatus.delivered)
    (hown : o.user = requester) :
    cancelOrderRoute catalog o requester reason now =
      (o, catalog, some OrderError.cannotCancel) := by
  have hbeq : (o.user == requester) = true := by simp [hown]
  have hcond : (o.status == OrderStatus.shipped ||
      o.status == OrderStatus.delivered) = true := by
    rcases hstat with h | h <;> simp [h]
  unfold cancelOrderRoute Order.cancelOrder
  rw [if_neg (by simp [hbeq]), if_pos hcond]

theorem cancel_shipped_delivered_fails_witness :
    (sampleShippedOrder.status = OrderStatus.shipped ∨
      sampleShippedOrder.status = OrderStatus.delivered) ∧
    cancelOrderRoute sampleOrderCatalog sampleShippedOrder 7 none 9 =
      (sampleShippedOrder, sampleOrderCatalog, some OrderError.cannotCancel) :=
  ⟨Or.inl rfl, cancel_shipped_delivered_fails (Or.inl rfl) rfl⟩

/-- C10: `updatePaymentStatus` unconditionally marks the order paid
(isPaid, paidAt, paymentResult) and promotes the status only from
`pending` to `processing`; the pay route rejects only already-paid
orders, so paying an unpaid cancelled order succeeds and leaves the
status `cancelled` while isPaid becomes true. -/
theorem pay_cancelled_order_marks_paid {o : Order} {pr : PaymentResult}
    {now requester : Nat}
    (hown : o.user = requester) (hunpaid : o.isPaid = false)
    (hcanc : o.status = OrderStatus.cancelled)
    (hid : pr.id ≠ "") (hst : pr.status ≠ "") :
    payOrderRoute requester o pr now = .ok (o.updatePaymentStatus pr now) ∧
    (o.updatePaymentStatus pr now).isPaid = true ∧
    (o.updatePaymentStatus pr now).paidAt = some now ∧
    (o.updatePaymentStatus pr now).paymentResult = some pr ∧
    (o.updatePaymentStatus pr now).status = OrderStatus.cancelled ∧
    (∀ o2 : Order, (o2.updatePaymentStatus pr now).isPaid = true ∧
      (o2.updatePaymentStatus pr now).status =
        (if o2.status = OrderStatus.pending then OrderStatus.processing
         else o2.status)) := by
  refine ⟨?_, updatePaymentStatus_isPaid o pr now, updatePaymentStatus_paidAt o pr now,
    updatePaymentStatus_paymentResult o pr now, ?_,
    fun o2 => ⟨updatePaymentStatus_isPaid o2 pr now, updatePaymentStatus_status o2 pr now⟩⟩
  · unfold payOrderRoute
    rw [if_neg (by simp [hid, hst]), if_neg (by simp [hown]), if_neg (by simp [hunpaid])]
  · rw [updatePaymentStatus_status, if_neg (by simp [hcanc]), hcanc]

theorem pay_cancelled_order_marks_paid_witness :
    sampleCancelledUnpaid.isPaid = false ∧
    payOrderRoute 7 sampleCancelledUnpaid samplePR 5 =
      .ok (sampleCancelledUnpaid.updatePaymentStatus samplePR 5) ∧
    (sampleCancelledUnpaid.updatePaymentStatus samplePR 5).isPaid = true ∧
    (sampleCancelledUnpaid.updatePaymentStatus samplePR 5).status =
      OrderStatus.cancelled := by
  have hthm := @pay_cancelled_order_marks_paid sampleCancelledUnpaid samplePR 5 7
    rfl rfl rfl (by decide) (by decide)
  exact ⟨rfl, hthm.1, hthm.2.1, hthm.2.2.2.2.1⟩

theorem processOrderItems_sum {catalog : List Product} :
    ∀ {reqItems : List OrderReqItem} {ip : ℚ} {lines : List OrderItem},
      processOrderItems catalog reqItems = .ok (ip, lines) →
      ip = orderItemsSum lines := by
  intro reqItems
  induction reqItems with
  | nil =>
    intro ip lines h
    simp only [processOrderItems, Except.ok.injEq, Prod.mk.injEq] at h
    rcases h with ⟨h1, h2⟩
    subst h1
    subst h2
    simp [orderItemsSum]
  | cons it rest ih =>
    intro ip lines h
    unfold processOrderItems at h
    cases hp : findProduct catalog it.product with
    | none =>
      simp only [hp] at h
      exact Except.noConfusion h
    | some p =>
      simp only [hp] at h
      split at h
      · exact Except.noConfusion h
      split at h
      · exact Except.noConfusion h
      cases hrec : processOrderItems catalog rest with
      | error e =>
        simp only [hrec] at h
        exact Except.noConfusion h
      | ok pr2 =>
        obtain ⟨ip2, lines2⟩ := pr2
        simp only [hrec, Except.ok.injEq, Prod.mk.injEq] at h
        rcases h with ⟨h1, h2⟩
        subst h1
        subst h2
        simp [orderItemsSum, ih hrec]

theorem createOrder_order_props {catalog : List Product} {userId : Nat}
    {reqItems : List OrderReqItem} {pm : String} {coupon : Option String}
    {date : OrderDate} {lastNum : Option String} {now : Nat} {o : Order}
    (h : (createOrderRoute catalog userId reqItems pm coupon date lastNum now).order =
      some o) :
    o.totalPrice = o.itemsPrice + o.taxPrice + o.shippingPrice - o.discountAmount ∧
    o.itemsPrice = orderItemsSum o.orderItems ∧
    o.status = OrderStatus.pending ∧
    o.statusHistory = [{ status := OrderStatus.pending, timestamp := now,
                         note := "Order created", updatedBy := none }] := by
  unfold createOrderRoute at h
  split at h
  · exact Option.noConfusion h
  split at h
  · exact Option.noConfusion h
  split at h
  · exact Option.noConfusion h
  cases hp : processOrderItems catalog reqItems with
  | error e =>
    simp only [hp] at h
    exact Option.noConfusion h
  | ok pr2 =>
    obtain ⟨ip, lines⟩ := pr2
    simp only [hp, Option.some.injEq] at h
    subst h
    refine ⟨rfl, ?_, rfl, rfl⟩
    exact processOrderItems_sum hp

/-- C2: every order the checkout route persists satisfies
`totalPrice = itemsPrice + taxPrice + shippingPrice - discountAmount`,
with `itemsPrice` the sum of snapshotted line price times quantity. -/
theorem createOrder_totalPrice_invariant {catalog : List Product} {userId : Nat}
    {reqItems : List OrderReqItem} {pm : String} {coupon : Option String}
    {date : OrderDate} {lastNum : Option String} {now : Nat} {o : Order}
    (h : (createOrderRoute catalog userId reqItems pm coupon date lastNum now).order =
      some o) :
    o.totalPrice = o.itemsPrice + o.taxPrice + o.shippingPrice - o.discountAmount ∧
    o.itemsPrice = orderItemsSum o.orderItems :=
  ⟨(createOrder_order_props h).1, (createOrder_order_props h).2.1⟩

theorem sampleCreate_eval :
    createOrderRoute sampleOrderCatalog 7 [{ product := 1, quantity := 2, variant := none }]
      "stripe" none ⟨2026, 10, 11⟩ none 0 =
    { order := some sampleCreatedOrder, catalog := sampleCatalogAfter, error := none } := by
  have hnum : orderNumberString ⟨2026, 10, 11⟩ none = "ORD2610110001" := by decide
  norm_num [createOrderRoute, processOrderItems, findProduct, List.find?,
    subtractStockLoop, setProduct, Product.updateStock, Product.fixStatus,
    Order.saveNew, Order.statusChangeHook, Order.initHistoryHook, hnum,
    orderCouponDiscount, sampleOrderCatalog, sampleCreatedOrder, sampleCatalogAfter,
    List.all, List.contains, List.elem, List.isEmpty]

theorem createOrder_totalPrice_invariant_witness :
    createOrderRoute sampleOrderCatalog 7 [{ product := 1, quantity := 2, variant := none }]
        "stripe" none ⟨2026, 10, 11⟩ none 0 =
      { order := some sampleCreatedOrder, catalog := sampleCatalogAfter, error := none } ∧
    sampleCreatedOrder.totalPrice = sampleCreatedOrder.itemsPrice +
      sampleCreatedOrder.taxPrice + sampleCreatedOrder.shippingPrice -
      sampleCreatedOrder.discountAmount ∧
    sampleCreatedOrder.itemsPrice = orderItemsSum sampleCreatedOrder.orderItems := by
  have h2 : (createOrderRoute sampleOrderCatalog 7
      [{ product := 1, quantity := 2, variant := none }]
      "stripe" none ⟨2026, 10, 11⟩ none 0).order = some sampleCreatedOrder := by
    rw [sampleCreate_eval]
  exact ⟨sampleCreate_eval, (createOrder_totalPrice_invariant h2).1,
    (createOrder_totalPrice_invariant h2).2⟩

/-- C3 (amended): statusHistory only ever grows by appending; a new order
has exactly one entry "Order created"; payment confirmation appends
exactly one entry (when it promotes pending to processing, none
otherwise); but user cancellation and admin status updates append TWO
entries when the status changes — their handler pushes one entry and the
save hook pushes a second — and one entry when it does not. -/
theorem statusHistory_append_shapes :
    (∀ (catalog : List Product) (userId : Nat) (reqItems : List OrderReqItem)
        (pm : String) (coupon : Option String) (date : OrderDate)
        (lastNum : Option String) (now : Nat) (o : Order),
      (createOrderRoute catalog userId reqItems pm coupon date lastNum now).order =
        some o →
      o.statusHistory = [{ status := OrderStatus.pending, timestamp := now,
                           note := "Order created", updatedBy := none }]) ∧
    (∀ (o : Order) (pr : PaymentResult) (now : Nat),
      (o.updatePaymentStatus pr now).statusHistory =
        o.statusHistory ++
          (if o.status = OrderStatus.pending then
            [{ status := OrderStatus.processing, timestamp := now,
               note := "Status updated to processing", updatedBy := none }]
           else [])) ∧
    (∀ (o : Order) (reason : String) (uid now : Nat) (o2 : Order),
      o.cancelOrder reason uid now = .ok o2 →
      o2.statusHistory =
        o.statusHistory ++
          [{ status := OrderStatus.cancelled, timestamp := now,
             note := "Order cancelled: " ++ reason, updatedBy := some uid }] ++
          (if o.status = OrderStatus.cancelled then []
           else [{ status := OrderStatus.cancelled, timestamp := now,
                   note := "Status updated to cancelled", updatedBy := none }])) ∧
    (∀ (o : Order) (ns : OrderStatus) (tn carrier note : Option String)
        (adminId now : Nat),
      (adminUpdateStatusRoute o ns tn carrier note adminId now).statusHistory =
        o.statusHistory ++
          [{ status := ns, timestamp := now,
             note := note.getD ("Status updated to " ++ ns.name ++ " by admin"),
             updatedBy := some adminId }] ++
          (if o.status = ns then []
           else [{ status := ns, timestamp := now,
                   note := "Status updated to " ++ ns.name, updatedBy := none }])) :=
  ⟨fun _ _ _ _ _ _ _ _ _ h => (createOrder_order_props h).2.2.2,
   updatePaymentStatus_history,
   fun _ _ _ _ _ h => cancelOrder_ok_history h,
   adminUpdateStatus_history⟩

theorem statusHistory_append_shapes_witness :
    (createOrderRoute sampleOrderCatalog 7 [{ product := 1, quantity := 2, variant := none }]
        "stripe" none ⟨2026, 10, 11⟩ none 0).order = some sampleCreatedOrder ∧
    sampleCreatedOrder.statusHistory =
      [{ status := OrderStatus.pending, timestamp := 0,
         note := "Order created", updatedBy := none }] ∧
    baseOrder.cancelOrder "changed my mind" 7 9 = .ok sampleCancelledTwice ∧
    sampleCancelledTwice.statusHistory =
      baseOrder.statusHistory ++
        [{ status := OrderStatus.cancelled, timestamp := 9,
           note := "Order cancelled: " ++ "changed my mind", updatedBy := some 7 }] ++
        (if baseOrder.status = OrderStatus.cancelled then []
         else [{ status := OrderStatus.cancelled, timestamp := 9,
                 note := "Status updated to cancelled", updatedBy := none }]) := by
  have hcr : (createOrderRoute sampleOrderCatalog 7
      [{ product := 1, quantity := 2, variant := none }]
      "stripe" none ⟨2026, 10, 11⟩ none 0).order = some sampleCreatedOrder := by
    rw [sampleCreate_eval]
  have hca : baseOrder.cancelOrder "changed my mind" 7 9 = .ok sampleCancelledTwice := rfl
  exact ⟨hcr, statusHistory_append_shapes.1 _ _ _ _ _ _ _ _ _ hcr, hca,
    statusHistory_append_shapes.2.2.1 _ _ _ _ _ hca⟩

/-- C3 counterexample: cancelling a pending order (statusHistory of length
one) appends TWO entries — the handler's "Order cancelled ..." entry and
the save hook's "Status updated to cancelled" entry — so the history
ends with 3 entries, not the 2 the claim's "exactly one entry per
transition" would give. -/
theorem cancel_two_entries_counterexample :
    (baseOrder.cancelOrder "changed my mind" 7 9).toOption.map
      (fun o => o.statusHistory.length) = some 3 ∧
    ¬ ((baseOrder.cancelOrder "changed my mind" 7 9).toOption.map
      (fun o => o.statusHistory.length) = some 2) :=
  ⟨by decide, by decide⟩

/-! Lemmas about decimal rendering and parsing, leading to the order-number
format theorem. -/

theorem natDigitsAux_eq {fuel n : Nat} (h : n ≤ fuel) :
    natDigitsAux fuel n = ((Nat.digits 10 n).map digitChar).reverse := by
  induction fuel generalizing n with
  | zero =>
    have hz : n = 0 := Nat.le_zero.mp h
    subst hz
    simp [natDigitsAux]
  | succ fuel ih =>
    by_cases hn : n = 0
    · subst hn
      simp [natDigitsAux]
    · rw [natDigitsAux, if_neg hn]
      have hlt : n / 10 ≤ fuel := by
        have := Nat.div_lt_self (Nat.pos_of_ne_zero hn) (by norm_num : 1 < 10)
        omega
      rw [ih hlt, Nat.digits_def' (by norm_num : 1 < 10) (Nat.pos_of_ne_zero hn)]
      simp

theorem natToString_data (n : Nat) :
    (natToString n).data =
      if n = 0 then ['0'] else ((Nat.digits 10 n).map digitChar).reverse := by
  unfold natToString
  by_cases hn : n = 0
  · rw [if_pos hn, if_pos hn]
  · rw [if_neg hn, if_neg hn]
    exact natDigitsAux_eq (Nat.le_refl n)

theorem digitChar_isDigit {d : Nat} (h : d < 10) : (digitChar d).isDigit = true := by
  interval_cases d <;> decide

theorem digitVal_digitChar {d : Nat} (h : d < 10) : digitVal (digitChar d) = d := by
  interval_cases d <;> decide

theorem natToString_all_digits (n : Nat) :
    ∀ c ∈ (natToString n).data, c.isDigit = true := by
  intro c hc
  rw [natToString_data] at hc
  split at hc
  · simp only [List.mem_singleton] at hc
    subst hc
    decide
  · simp only [List.mem_reverse, List.mem_map] at hc
    rcases hc with ⟨d, hd, rfl⟩
    exact digitChar_isDigit (Nat.digits_lt_base (by norm_num) hd)

theorem natToString_ne_nil (n : Nat) : (natToString n).data ≠ [] := by
  rw [natToString_data]
  split
  · simp
  · next hn =>
    simp [List.reverse_eq_nil_iff, Nat.digits_ne_nil_iff_ne_zero, hn]

theorem natToString_length_le {n k : Nat} (hk : 1 ≤ k) (hn : n < 10 ^ k) :
    (natToString n).data.length ≤ k := by
  rw [natToString_data]
  split
  · simpa using hk
  · next hz =>
    rw [List.length_reverse, List.length_map, Nat.digits_len 10 n (by norm_num) hz]
    have := Nat.log_lt_of_lt_pow hz hn
    omega

theorem natToString_length_ge2 {n : Nat} (h : 10 ≤ n) :
    2 ≤ (natToString n).data.length := by
  have hz : n ≠ 0 := by omega
  rw [natToString_data, if_neg hz, List.length_reverse, List.length_map,
    Nat.digits_len 10 n (by norm_num) hz]
  have h10 : (10 : ℕ) ^ 1 ≤ n := by simpa using h
  have hlog := (Nat.pow_le_iff_le_log (by norm_num) hz).mp h10
  omega

theorem parseDigitsAux_append {l1 l2 : List Char} (h : ∀ c ∈ l1, c.isDigit = true) :
    ∀ acc, parseDigitsAux acc (l1 ++ l2) = parseDigitsAux (parseDigitsAux acc l1) l2 := by
  induction l1 with
  | nil => intro acc; simp [parseDigitsAux]
  | cons c rest ih =>
    intro acc
    have hc : c.isDigit = true := h c (by simp)
    simp only [List.cons_append, parseDigitsAux, hc, if_true]
    exact ih (fun x hx => h x (by simp [hx])) _

theorem parseDigitsAux_replicate_zero (k : Nat) :
    ∀ acc, parseDigitsAux acc (List.replicate k '0') = acc * 10 ^ k := by
  induction k with
  | zero => intro acc; simp [parseDigitsAux]
  | succ k ih =>
    intro acc
    rw [List.replicate_succ]
    simp only [parseDigitsAux]
    rw [if_pos (by decide : ('0' : Char).isDigit = true), ih]
    have h0 : digitVal '0' = 0 := by decide
    rw [h0]
    ring

theorem parseDigitsAux_digits {ds : List Nat} (h : ∀ d ∈ ds, d < 10) :
    ∀ acc, parseDigitsAux acc ((ds.map digitChar).reverse) =
      acc * 10 ^ ds.length + Nat.ofDigits 10 ds := by
  induction ds with
  | nil => intro acc; simp [parseDigitsAux, Nat.ofDigits]
  | cons d rest ih =>
    intro acc
    have hd : d < 10 := h d (by simp)
    have hrest : ∀ x ∈ rest, x < 10 := fun x hx => h x (by simp [hx])
    have hdigs : ∀ c ∈ (rest.map digitChar).reverse, c.isDigit = true := by
      intro c hc
      simp only [List.mem_reverse, List.mem_map] at hc
      rcases hc with ⟨d2, hd2, rfl⟩
      exact digitChar_isDigit (hrest d2 hd2)
    rw [List.map_cons, List.reverse_cons, parseDigitsAux_append hdigs acc, ih hrest]
    simp only [parseDigitsAux]
    rw [if_pos (digitChar_isDigit hd), digitVal_digitChar hd, Nat.ofDigits_cons]
    simp only [List.length_cons, pow_succ]
    ring

theorem parseDigitsAux_natToString (n : Nat) :
    ∀ acc, parseDigitsAux acc (natToString n).data =
      acc * 10 ^ (natToString n).data.length + n := by
  intro acc
  rw [natToString_data]
  by_cases hn : n = 0
  · rw [if_pos hn, hn]
    have h0 : digitVal '0' = 0 := by decide
    have hd : ('0' : Char).isDigit = true := by decide
    simp [parseDigitsAux, h0, hd, Nat.mul_comm]
  · rw [if_neg hn,
      parseDigitsAux_digits (fun d hd => Nat.digits_lt_base (by norm_num) hd) acc,
      Nat.ofDigits_digits, List.length_reverse, List.length_map]

theorem jsParseInt_all_digits {l : List Char} (hne : l ≠ [])
    (h : ∀ c ∈ l, c.isDigit = true) :
    jsParseInt (String.mk l) = some (parseDigitsAux 0 l) := by
  unfold jsParseInt
  cases l with
  | nil => exact absurd rfl hne
  | cons c rest =>
    dsimp only
    rw [if_pos (h c (by simp))]

theorem jsParseInt_pad_natToString (m k : Nat) :
    jsParseInt (String.mk (List.replicate k '0' ++ (natToString m).data)) = some m := by
  have hzd : ∀ c ∈ List.replicate k '0', c.isDigit = true := by
    intro c hc
    have := List.eq_of_mem_replicate hc
    subst this
    decide
  have hdig : ∀ c ∈ List.replicate k '0' ++ (natToString m).data, c.isDigit = true := by
    intro c hc
    rcases List.mem_append.mp hc with hc | hc
    · exact hzd c hc
    · exact natToString_all_digits m c hc
  have hne : List.replicate k '0' ++ (natToString m).data ≠ [] := by
    intro hnil
    rcases List.append_eq_nil.mp hnil with ⟨_, h2⟩
    exact natToString_ne_nil m h2
  rw [jsParseInt_all_digits hne hdig, parseDigitsAux_append hzd,
    parseDigitsAux_replicate_zero, parseDigitsAux_natToString]
  simp

theorem jsPadStart_data (n : Nat) (c : Char) (s : String) :
    (jsPadStart n c s).data = List.replicate (n - s.data.length) c ++ s.data := rfl

theorem jsPadStart_length {n : Nat} {c : Char} {s : String}
    (h : s.data.length ≤ n) : (jsPadStart n c s).data.length = n := by
  rw [jsPadStart_data, List.length_append, List.length_replicate]
  omega

theorem jsSubstrLast_data (n : Nat) (s : String) :
    (jsSubstrLast n s).data = s.data.drop (s.data.length - n) := rfl

theorem jsSubstrLast_length {n : Nat} {s : String} (h : n ≤ s.data.length) :
    (jsSubstrLast n s).data.length = n := by
  rw [jsSubstrLast_data, List.length_drop]
  omega

theorem year2_length {y : Nat} (hy : 10 ≤ y) :
    (jsSubstrLast 2 (natToString y)).data.length = 2 :=
  jsSubstrLast_length (le_trans (by norm_num) (natToString_length_ge2 hy))

theorem pad2_length {m : Nat} (hm : m ≤ 99) :
    (jsPadStart 2 '0' (natToString m)).data.length = 2 := by
  apply jsPadStart_length
  apply natToString_length_le (by norm_num)
  have h2 : (10 : ℕ) ^ 2 = 100 := by norm_num
  omega

theorem pad4_length {s : Nat} (hs : s ≤ 9999) :
    (jsPadStart 4 '0' (natToString s)).data.length = 4 := by
  apply jsPadStart_length
  apply natToString_length_le (by norm_num)
  have h4 : (10 : ℕ) ^ 4 = 10000 := by norm_num
  omega

theorem orderNumberWithSeq_data (date : OrderDate) (seq : Nat) :
    (orderNumberWithSeq date seq).data =
      "ORD".data ++ (jsSubstrLast 2 (natToString date.year)).data ++
      (jsPadStart 2 '0' (natToString date.month)).data ++
      (jsPadStart 2 '0' (natToString date.day)).data ++
      (jsPadStart 4 '0' (natToString seq)).data := by
  unfold orderNumberWithSeq
  simp [String.data_append]

theorem jsParseInt_withSeq {date : OrderDate} {s : Nat}
    (hy : 10 ≤ date.year) (hm : date.month ≤ 99) (hd : date.day ≤ 99)
    (hs : s ≤ 9999) :
    jsParseInt (jsSubstrLast 4 (orderNumberWithSeq date s)) = some s := by
  have hA : ("ORD".data ++ (jsSubstrLast 2 (natToString date.year)).data ++
      (jsPadStart 2 '0' (natToString date.month)).data ++
      (jsPadStart 2 '0' (natToString date.day)).data).length = 9 := by
    have hORD : ("ORD".data).length = 3 := rfl
    simp [List.length_append, hORD, year2_length hy, pad2_length hm, pad2_length hd]
  have hlist : (orderNumberWithSeq date s).data.drop
      ((orderNumberWithSeq date s).data.length - 4) =
      (jsPadStart 4 '0' (natToString s)).data := by
    rw [orderNumberWithSeq_data, List.length_append, hA, pad4_length hs]
    have h94 : 9 + 4 - 4 = 9 := by norm_num
    rw [h94, ← hA, List.drop_left]
  have hsub : jsSubstrLast 4 (orderNumberWithSeq date s) =
      String.mk ((jsPadStart 4 '0' (natToString s)).data) :=
    congrArg String.mk hlist
  rw [hsub]
  exact jsParseInt_pad_natToString s (4 - (natToString s).data.length)

theorem orderNumberString_step (date : OrderDate) {s : Nat}
    (hy : 10 ≤ date.year) (hm : date.month ≤ 99) (hd : date.day ≤ 99)
    (hs : s ≤ 9999) :
    orderNumberString date (some (orderNumberWithSeq date s)) =
      orderNumberWithSeq date (s + 1) := by
  unfold orderNumberString
  dsimp only
  rw [jsParseInt_withSeq hy hm hd hs]
  rfl

theorem nthOrderNumber_eq_withSeq (date : OrderDate)
    (hy : 10 ≤ date.year) (hm : date.month ≤ 99) (hd : date.day ≤ 99) :
    ∀ k : Nat, k + 1 ≤ 9999 → nthOrderNumber date k = orderNumberWithSeq date (k + 1) := by
  intro k
  induction k with
  | zero => intro _; rfl
  | succ k ih =>
    intro hk
    have hk2 : k + 1 ≤ 9999 := by omega
    rw [nthOrderNumber, ih hk2]
    exact orderNumberString_step date hy hm hd (by omega)

theorem pad_all_digits (n m : Nat) :
    ((jsPadStart n '0' (natToString m)).data.all Char.isDigit) = true := by
  rw [jsPadStart_data]
  simp only [List.all_append, Bool.and_eq_true]
  constructor
  · rw [List.all_eq_true]
    intro c hc
    have := List.eq_of_mem_replicate hc
    subst this
    decide
  · rw [List.all_eq_true]
    intro c hc
    exact natToString_all_digits m c hc

theorem year_all_digits (y : Nat) :
    ((jsSubstrLast 2 (natToString y)).data.all Char.isDigit) = true := by
  rw [jsSubstrLast_data, List.all_eq_true]
  intro c hc
  exact natToString_all_digits y c (List.mem_of_mem_drop hc)

/-- C7 (amended): under sequential checkouts, for the first 9999 orders of a
calendar day, the `k`-th order of the day (with `k` orders already
created that day) gets number `ORD` + 2-digit year + 2-digit month +
2-digit day + the 4-digit zero-padded sequence `k + 1`; the first order
of a day gets sequence 1, and parsing the 4-digit suffix recovers
`k + 1`.  The bound is necessary: at the 10000th order of a day
`padStart(4, '0')` does not truncate, the sequence part becomes 5 digits
and the following order's sequence restarts at 1 (see the overflow
counterexample below). -/
theorem orderNumber_format (date : OrderDate) (k : Nat)
    (hy : 10 ≤ date.year) (hm : date.month ≤ 99) (hd : date.day ≤ 99)
    (hk : k + 1 ≤ 9999) :
    nthOrderNumber date k = orderNumberWithSeq date (k + 1) ∧
    (orderNumberWithSeq date (k + 1)).data =
      'O' :: 'R' :: 'D' ::
        ((jsSubstrLast 2 (natToString date.year)).data ++
         (jsPadStart 2 '0' (natToString date.month)).data ++
         (jsPadStart 2 '0' (natToString date.day)).data ++
         (jsPadStart 4 '0' (natToString (k + 1))).data) ∧
    (jsSubstrLast 2 (natToString date.year)).data.length = 2 ∧
    (jsPadStart 2 '0' (natToString date.month)).data.length = 2 ∧
    (jsPadStart 2 '0' (natToString date.day)).data.length = 2 ∧
    (jsPadStart 4 '0' (natToString (k + 1))).data.length = 4 ∧
    (((jsSubstrLast 2 (natToString date.year)).data ++
      (jsPadStart 2 '0' (natToString date.month)).data ++
      (jsPadStart 2 '0' (natToString date.day)).data ++
      (jsPadStart 4 '0' (natToString (k + 1))).data).all Char.isDigit) = true ∧
    jsParseInt (jsPadStart 4 '0' (natToString (k + 1))) = some (k + 1) := by
  refine ⟨nthOrderNumber_eq_withSeq date hy hm hd k hk, ?_, year2_length hy,
    pad2_length hm, pad2_length hd, pad4_length hk, ?_, ?_⟩
  · have hORD : "ORD".data = ['O', 'R', 'D'] := rfl
    rw [orderNumberWithSeq_data, hORD]
    simp [List.append_assoc]
  · simp only [List.all_append, Bool.and_eq_true]
    exact ⟨⟨⟨year_all_digits date.year, pad_all_digits 2 date.month⟩,
      pad_all_digits 2 date.day⟩, pad_all_digits 4 (k + 1)⟩
  · have hsub : jsPadStart 4 '0' (natToString (k + 1)) =
        String.mk (List.replicate (4 - (natToString (k + 1)).data.length) '0' ++
          (natToString (k + 1)).data) := rfl
    rw [hsub]
    exact jsParseInt_pad_natToString (k + 1) _

theorem orderNumber_format_witness :
    nthOrderNumber ⟨2026, 10, 11⟩ 1 = orderNumberWithSeq ⟨2026, 10, 11⟩ 2 ∧
    orderNumberWithSeq ⟨2026, 10, 11⟩ 2 = "ORD2610110002" :=
  ⟨(orderNumber_format ⟨2026, 10, 11⟩ 1 (by norm_num) (by norm_num) (by norm_num)
      (by norm_num)).1,
   by decide⟩

/-- C7 counterexample: the universal 4-digit / count-plus-one claim fails at
the 10000th same-day order.  On 2026-10-11, after 9999 orders the next
order (the 10000th, `k = 9999`) gets "ORD26101110000": 14 characters,
while the claimed `ORD` + 2 + 2 + 2 + 4 form has exactly 13, so its
sequence part is 5 digits, not 4.  The order after that (`k = 10000`,
the 10001st) parses `substr(-4) = "0000"` back to 0 and gets sequence
1 — not the claimed count + 1 = 10001. -/
theorem orderNumber_overflow_counterexample :
    nthOrderNumber ⟨2026, 10, 11⟩ 9999 = "ORD26101110000" ∧
    (nthOrderNumber ⟨2026, 10, 11⟩ 9999).data.length = 14 ∧
    nthOrderNumber ⟨2026, 10, 11⟩ 10000 = "ORD2610110001" ∧
    jsParseInt (jsSubstrLast 4 (nthOrderNumber ⟨2026, 10, 11⟩ 10000)) = some 1 := by
  have h1 : nthOrderNumber ⟨2026, 10, 11⟩ 9998 = orderNumberWithSeq ⟨2026, 10, 11⟩ 9999 :=
    nthOrderNumber_eq_withSeq ⟨2026, 10, 11⟩ (by norm_num) (by norm_num) (by norm_num)
      9998 (by norm_num)
  have h2 : nthOrderNumber ⟨2026, 10, 11⟩ 9999 = "ORD26101110000" := by
    show orderNumberString ⟨2026, 10, 11⟩ (some (nthOrderNumber ⟨2026, 10, 11⟩ 9998)) = _
    rw [h1]
    decide
  have h3 : nthOrderNumber ⟨2026, 10, 11⟩ 10000 = "ORD2610110001" := by
    show orderNumberString ⟨2026, 10, 11⟩ (some (nthOrderNumber ⟨2026, 10, 11⟩ 9999)) = _
    rw [h2]
    decide
  refine ⟨h2, ?_, h3, ?_⟩
  · rw [h2]
    decide
  · rw [h3]
    decide
